import Mathlib

/-!
Verification of the rundeck notification-action executor
(src/rundeck_action/action_types/rundeck.ts) of the cloud-alerting plugin.

The executor performs three remote HTTP calls (Rundeck job trigger, PagerDuty
incident list / add note, Slack webhook) composed with straight-line branching.
We embed it as a pure function over a `World` describing the behaviour of the
three remote collaborators, returning the executor outcome together with the
trace of remote calls it issued.  JavaScript dynamic-field-access semantics is
modelled explicitly: a field that may be `undefined`/`null` is an `Option`, a
JS TypeError thrown by reading a property of `undefined` surfaces as
`Except.error ()` at the executor boundary (the executor throws to its caller),
and template-literal stringification of `undefined` / `null` is `jsUndef` /
`jsNull`.
-/

set_option maxRecDepth 20000

namespace Rundeck

/-- JS template-literal stringification of a possibly-`undefined` value. -/
def jsUndef : Option String → String
  | some s => s
  | none => "undefined"

/-- JS template-literal stringification of a possibly-`null` value. -/
def jsNull : Option String → String
  | some s => s
  | none => "null"

/-- JS truthiness of a nullable string (`null` and `""` are falsy). -/
def truthy : Option String → Bool
  | some s => !s.isEmpty
  | none => false

/-- Response body of a successful Rundeck job-execution call; `permalink` may
be absent (the code reads it without validation). -/
structure RundeckData where
  permalink : Option String
  deriving DecidableEq

/-- A successful axios response from the Rundeck job-execution API. -/
structure RundeckResponse where
  status : Nat
  statusText : String
  data : Option RundeckData
  deriving DecidableEq

/-- Body of a non-2xx Rundeck response; the `message` field may be absent. -/
structure RundeckErrData where
  message : Option String
  deriving DecidableEq

/-- The `response` object carried by an axios error from the Rundeck call. -/
structure RundeckErrResponse where
  data : Option RundeckErrData
  deriving DecidableEq

/-- An error thrown by the Rundeck call: `response` is present for non-2xx
responses and absent for transport failures; `message` is the generic axios
error text. -/
structure RundeckErr where
  response : Option RundeckErrResponse
  message : String
  deriving DecidableEq

/-- Structured error detail of a PagerDuty error body; `message` may be
absent. -/
structure PdErrDetail where
  message : Option String
  deriving DecidableEq

/-- Body of a non-2xx PagerDuty response; the `error` object may be absent. -/
structure PdErrData where
  error : Option PdErrDetail
  deriving DecidableEq

/-- The `response` object carried by an axios error from a PagerDuty call. -/
structure PdErrResponse where
  status : Nat
  data : Option PdErrData
  deriving DecidableEq

/-- An error thrown by a PagerDuty call. -/
structure PdErr where
  response : Option PdErrResponse
  message : String
  deriving DecidableEq

/-- A PagerDuty incident as consumed by the code (only `id` is read). -/
structure Incident where
  id : String
  deriving DecidableEq

/-- Body of a successful PagerDuty incident-list response; the `incidents`
array may be absent in a malformed body. -/
structure PdListData where
  incidents : Option (List Incident)
  deriving DecidableEq

/-- A successful axios response from the PagerDuty incident-list API. -/
structure PdListResponse where
  data : Option PdListData
  deriving DecidableEq

/-- An error thrown by `IncomingWebhook.send`; the code reads only its
`error` field (which may be absent); `message` is carried but never read. -/
structure SlackErr where
  error : Option String
  message : String
  deriving DecidableEq

/-- Behaviour of the three remote collaborators for one invocation: the
outcome each call would have if issued. -/
structure World where
  rundeck : Except RundeckErr RundeckResponse
  slack : Except SlackErr Unit
  pdList : Except PdErr PdListResponse
  pdNote : Except PdErr Unit

/-- `ActionTypeConfigType` of the source: validated action configuration. -/
structure ActionTypeConfigType where
  rundeckBaseUrl : String
  rundeckApiVersion : Nat
  rundeckJobId : String
  headers : Option (List (String × String))
  deriving DecidableEq

/-- `ActionTypeSecretsType` of the source: `pdApiKey` and `slackWebhookUrl`
are nullable. -/
structure ActionTypeSecretsType where
  rundeckApiToken : String
  pdApiKey : Option String
  slackWebhookUrl : Option String
  deriving DecidableEq

/-- `ActionParamsType` of the source: all fields nullable/optional; the
job-parameters object is opaque to the executor and modelled as a blob. -/
structure ActionParamsType where
  dedupKey : Option String
  alertName : Option String
  jobParams : Option String
  deriving DecidableEq

/-- `ActionTypeExecutorResult`: the tagged union returned by the executor. -/
inductive ActionTypeExecutorResult where
  | ok (data : Option RundeckData)
  | error (message : String)
  deriving DecidableEq

/-- One remote HTTP request as issued by the executor, with the arguments
the code passes. -/
inductive RemoteCall where
  | rundeckJob (url : String) (headers : List (String × String))
      (body : Option String)
  | pdIncidentList (url : String) (headers : List (String × String))
  | pdAddNote (url : String) (headers : List (String × String))
      (noteContent : String)
  | slackSend (url : String) (text : Option String) (attachmentText : String)
  deriving DecidableEq

/-- `successResult` of the source. -/
def successResult (data : Option RundeckData) : ActionTypeExecutorResult :=
  .ok data

/-- `errorPagerDutyProcess` of the source. -/
def errorPagerDutyProcess (id message : String) : ActionTypeExecutorResult :=
  .error ("An error occurred while calling Pager Duty API in rundeck action \"" ++
    (id ++ ("\": " ++ message)))

/-- `errorSlackProcess` of the source. -/
def errorSlackProcess (id message : String) : ActionTypeExecutorResult :=
  .error ("Invalid Response: an error occurred in rundeck action \"" ++
    (id ++ ("\": " ++ message)))

/-- `errorResult` of the source. -/
def errorResult (id message : String) : ActionTypeExecutorResult :=
  .error ("Invalid Response: an error occurred in rundeck action \"" ++
    (id ++ ("\" calling a rundeck job: " ++ message)))

/-- `executeRundeckJob` of the source, as the request it issues: auth token
header appended, trailing slash of the base URL trimmed. -/
def executeRundeckJob (headers : List (String × String))
    (rundeckBaseUrl rundeckApiToken : String) (rundeckApiVersion : Nat)
    (rundeckJobId : String) (jobParams : Option String) : RemoteCall :=
  let headers := headers ++ [("X-Rundeck-Auth-Token", rundeckApiToken)]
  -- rundeckBaseUrl.endsWith('/') ? rundeckBaseUrl.slice(0, -1) : rundeckBaseUrl
  let rundeckBaseUrlWithoutSlash :=
    if rundeckBaseUrl.data.getLast? = some '/' then
      String.mk rundeckBaseUrl.data.dropLast
    else rundeckBaseUrl
  let rundeckApiUrl := rundeckBaseUrlWithoutSlash ++ ("/api/" ++
    (toString rundeckApiVersion ++ ("/job/" ++ (rundeckJobId ++ "/executions"))))
  .rundeckJob rundeckApiUrl headers jobParams

/-- `getPagerDutyIncidentList` of the source, as the request it issues. -/
def getPagerDutyIncidentList (headers : List (String × String))
    (pdApiKey : Option String) (dedupKey : Option String) : RemoteCall :=
  let headers := headers ++ [("authorization", "Token token=" ++ jsNull pdApiKey)]
  .pdIncidentList
    ("https://api.pagerduty.com/incidents?date_range=all&incident_key=" ++
      jsNull dedupKey) headers

/-- `addNoteToPagerDutyIncident` of the source, as the request it issues. -/
def addNoteToPagerDutyIncident (headers : List (String × String))
    (pdApiKey : Option String) (incidentId : String)
    (executionLink : Option String) : RemoteCall :=
  let headers := headers ++ [("authorization", "Token token=" ++ jsNull pdApiKey)]
  .pdAddNote ("https://api.pagerduty.com/incidents/" ++ (incidentId ++ "/notes"))
    headers
    ("Rundeck job for the alert is triggered. Link: " ++ jsUndef executionLink)

/-- `executor` of the source.  Returns `Except.ok` with the
`ActionTypeExecutorResult` when the function returns normally, `Except.error ()`
when a JS TypeError (property access on `undefined`) escapes to the caller,
paired with the trace of remote requests issued before that point. -/
def executor (config : ActionTypeConfigType) (secrets : ActionTypeSecretsType)
    (params : ActionParamsType) (actionId : String) (w : World) :
    Except Unit ActionTypeExecutorResult × List RemoteCall :=
  let headers := config.headers.getD []
  let rundeckCall := executeRundeckJob headers config.rundeckBaseUrl
    secrets.rundeckApiToken config.rundeckApiVersion config.rundeckJobId
    params.jobParams
  match w.rundeck with
  | .error err =>
    -- catch: message = err.response ? err.response.data.message : err.message
    match err.response with
    | some resp =>
      match resp.data with
      | some d => (.ok (errorResult actionId (jsUndef d.message)), [rundeckCall])
      | none => (.error (), [rundeckCall])
    | none => (.ok (errorResult actionId err.message), [rundeckCall])
  | .ok rundeckResult =>
    match rundeckResult.data with
    -- executionLink = rundeckResult.data.permalink throws when data is absent
    | none => (.error (), [rundeckCall])
    | some rdata =>
      let executionLink := rdata.permalink
      if !truthy params.dedupKey then
        if !truthy secrets.slackWebhookUrl then
          (.ok (errorSlackProcess actionId
            "Neither of dedupKey nor slackWebhookUrl are provided, failed to send message to PagerDuty incident or slack channel."),
            [rundeckCall])
        else
          let slackCall := RemoteCall.slackSend (jsNull secrets.slackWebhookUrl)
            params.alertName
            ("Rundeck job for the alert is triggered. Link: " ++
              jsUndef executionLink)
          match w.slack with
          | .ok _ =>
            (.ok (successResult rundeckResult.data), [rundeckCall, slackCall])
          | .error err =>
            (.ok (errorSlackProcess actionId
              ("an error occurred while calling slack webhook: " ++
                jsUndef err.error)), [rundeckCall, slackCall])
      else
        let pdListCall := getPagerDutyIncidentList headers secrets.pdApiKey
          params.dedupKey
        match w.pdList with
        | .error err =>
          -- catch: message = err.response
          --   ? `${err.response.status} ${err.response.data.error.message}`
          --   : err.message
          match err.response with
          | some resp =>
            match resp.data with
            | some d =>
              match d.error with
              | some e =>
                (.ok (errorPagerDutyProcess actionId
                  (toString resp.status ++ (" " ++ jsUndef e.message))),
                  [rundeckCall, pdListCall])
              | none => (.error (), [rundeckCall, pdListCall])
            | none => (.error (), [rundeckCall, pdListCall])
          | none =>
            (.ok (errorPagerDutyProcess actionId err.message),
              [rundeckCall, pdListCall])
        | .ok listResp =>
          match listResp.data with
          | none => (.error (), [rundeckCall, pdListCall])
          | some ldata =>
            match ldata.incidents with
            | none => (.error (), [rundeckCall, pdListCall])
            | some incidents =>
              -- !incidents.length, then incidents.pop().id: the guard fires
              -- exactly when the list is empty and pop yields the last element
              match incidents.getLast? with
              | none =>
                (.ok (errorPagerDutyProcess actionId
                  ("Pager Duty incident list requested by dedupKey(incident_key), \"" ++
                    (jsNull params.dedupKey ++ "\", is empty."))),
                  [rundeckCall, pdListCall])
              | some lastIncident =>
                let pdNoteCall := addNoteToPagerDutyIncident headers
                  secrets.pdApiKey lastIncident.id executionLink
                match w.pdNote with
                | .error err =>
                  -- catch: computes `${err.response.status} ${...error.message}`
                  -- for the warn log, then returns err.message
                  match err.response with
                  | some resp =>
                    match resp.data with
                    | some d =>
                      match d.error with
                      | some _ =>
                        (.ok (errorPagerDutyProcess actionId err.message),
                          [rundeckCall, pdListCall, pdNoteCall])
                      | none =>
                        (.error (), [rundeckCall, pdListCall, pdNoteCall])
                    | none =>
                      (.error (), [rundeckCall, pdListCall, pdNoteCall])
                  | none =>
                    (.ok (errorPagerDutyProcess actionId err.message),
                      [rundeckCall, pdListCall, pdNoteCall])
                | .ok _ =>
                  (.ok (successResult rundeckResult.data),
                    [rundeckCall, pdListCall, pdNoteCall])

/-- `s` contains `sub` as a contiguous substring. -/
def mentions (s sub : String) : Prop :=
  ∃ p q : String, s = p ++ (sub ++ q)

theorem mentions_append_left {b sub : String} (a : String) (h : mentions b sub) :
    mentions (a ++ b) sub := by
  obtain ⟨p, q, rfl⟩ := h
  exact ⟨a ++ p, q, by rw [String.append_assoc]⟩

theorem mentions_append_right {a sub : String} (b : String) (h : mentions a sub) :
    mentions (a ++ b) sub := by
  obtain ⟨p, q, rfl⟩ := h
  exact ⟨p, q ++ b, by rw [String.append_assoc, String.append_assoc]⟩

theorem mentions_contiguous {s sub : String} (h : mentions s sub) :
    sub.data <:+: s.data := by
  obtain ⟨p, q, rfl⟩ := h
  exact ⟨p.data, q.data, by simp [String.data_append]⟩

/-! Concrete fixtures used by witnesses and counterexamples. -/

def cfg0 : ActionTypeConfigType :=
  ⟨"https://rundeck.example.com/", 24, "job-1", none⟩

def sec0 : ActionTypeSecretsType :=
  ⟨"tok", some "pdkey", some "https://hooks.example.com/x"⟩

/-- Params with a dedup key. -/
def parKey : ActionParamsType := ⟨some "dk-1", some "my alert", none⟩

/-- Params without a dedup key. -/
def parNoKey : ActionParamsType := ⟨none, some "my alert", none⟩

/-- A well-formed successful Rundeck response. -/
def rdOk : RundeckResponse := ⟨200, "OK", some ⟨some "https://rd/exec/1"⟩⟩

/-- A well-formed non-empty incident-list response. -/
def pdListOk : PdListResponse := ⟨some ⟨some [⟨"P1"⟩, ⟨"P2"⟩]⟩⟩

/-- All three collaborators succeed with well-formed bodies. -/
def w0 : World := ⟨.ok rdOk, .ok (), .ok pdListOk, .ok ()⟩

/-- Every normally-returned result is one of the four result builders of the
source, with the caller's `actionId` as the id argument of the error ones. -/
theorem executor_returns_builder (config : ActionTypeConfigType)
    (secrets : ActionTypeSecretsType) (params : ActionParamsType)
    (actionId : String) (w : World) (r : ActionTypeExecutorResult)
    (t : List RemoteCall)
    (h : executor config secrets params actionId w = (Except.ok r, t)) :
    (∃ d, r = successResult d) ∨ (∃ m, r = errorResult actionId m) ∨
    (∃ m, r = errorPagerDutyProcess actionId m) ∨
    (∃ m, r = errorSlackProcess actionId m) := by
  unfold executor at h
  repeat' split at h
  all_goals simp only [Prod.mk.injEq] at h
  all_goals obtain ⟨h1, h2⟩ := h
  all_goals cases h1
  all_goals first
    | exact Or.inl ⟨_, rfl⟩
    | exact Or.inr (Or.inl ⟨_, rfl⟩)
    | exact Or.inr (Or.inr (Or.inl ⟨_, rfl⟩))
    | exact Or.inr (Or.inr (Or.inr ⟨_, rfl⟩))

/-- C1: for every valid input (config, secrets, params, actionId) and every
collaborator behaviour, whenever the executor returns it returns exactly one
of the two `ActionTypeExecutorResult` shapes, and in every error case the
message contains the caller's actionId. -/
theorem C1_result_shape_mentions_actionId (config : ActionTypeConfigType)
    (secrets : ActionTypeSecretsType) (params : ActionParamsType)
    (actionId : String) (w : World) (r : ActionTypeExecutorResult)
    (t : List RemoteCall)
    (h : executor config secrets params actionId w = (Except.ok r, t)) :
    (∃ d, r = ActionTypeExecutorResult.ok d) ∨
    (∃ m, r = ActionTypeExecutorResult.error m ∧ mentions m actionId) := by
  rcases executor_returns_builder config secrets params actionId w r t h with
    ⟨d, rfl⟩ | ⟨m, rfl⟩ | ⟨m, rfl⟩ | ⟨m, rfl⟩
  · exact Or.inl ⟨d, rfl⟩
  · exact Or.inr ⟨_, rfl,
      "Invalid Response: an error occurred in rundeck action \"",
      "\" calling a rundeck job: " ++ m, rfl⟩
  · exact Or.inr ⟨_, rfl,
      "An error occurred while calling Pager Duty API in rundeck action \"",
      "\": " ++ m, rfl⟩
  · exact Or.inr ⟨_, rfl,
      "Invalid Response: an error occurred in rundeck action \"",
      "\": " ++ m, rfl⟩

/-- Witness for C1 at a concrete input. -/
theorem C1_result_shape_mentions_actionId_witness :
    (∃ d, (ActionTypeExecutorResult.ok (some ⟨some "https://rd/exec/1"⟩)) =
      ActionTypeExecutorResult.ok d) ∨
    (∃ m, (ActionTypeExecutorResult.ok (some ⟨some "https://rd/exec/1"⟩)) =
      ActionTypeExecutorResult.error m ∧ mentions m "a1") :=
  C1_result_shape_mentions_actionId cfg0 sec0 parNoKey "a1" w0 _ _ rfl

/-- Collaborator behaviour whose bodies carry every field the code
dereferences: error responses have `data` (with the structured `error` object
for the PagerDuty calls), a successful Rundeck response has `data`, and a
successful incident-list response has `data.incidents`. -/
def WellFormedWorld (w : World) : Prop :=
  (∀ err resp, w.rundeck = .error err → err.response = some resp →
    resp.data.isSome) ∧
  (∀ r, w.rundeck = .ok r → r.data.isSome) ∧
  (∀ err resp, w.pdList = .error err → err.response = some resp →
    ∃ d, resp.data = some d ∧ d.error.isSome) ∧
  (∀ resp, w.pdList = .ok resp →
    ∃ d, resp.data = some d ∧ d.incidents.isSome) ∧
  (∀ err resp, w.pdNote = .error err → err.response = some resp →
    ∃ d, resp.data = some d ∧ d.error.isSome)

/-- C2 (amended): the executor never throws to its caller provided every
collaborator response carries the fields the code dereferences; with a
malformed body (e.g. a successful job-trigger response without `data`) the
unprotected property access throws. -/
theorem C2_no_throw_of_wellFormed (config : ActionTypeConfigType)
    (secrets : ActionTypeSecretsType) (params : ActionParamsType)
    (actionId : String) (w : World) (hw : WellFormedWorld w) :
    (executor config secrets params actionId w).fst.isOk = true := by
  obtain ⟨hw1, hw2, hw3, hw4, hw5⟩ := hw
  cases hrd : w.rundeck with
  | error err =>
    cases hre : err.response with
    | none => simp [executor, hrd, hre, Except.isOk, Except.toBool]
    | some resp =>
      obtain ⟨d, hd⟩ := Option.isSome_iff_exists.mp (hw1 err resp hrd hre)
      simp [executor, hrd, hre, hd, Except.isOk, Except.toBool]
  | ok rr =>
    obtain ⟨rd, hrdata⟩ := Option.isSome_iff_exists.mp (hw2 rr hrd)
    cases hdk : !truthy params.dedupKey with
    | true =>
      cases hsw : !truthy secrets.slackWebhookUrl with
      | true => simp [executor, hrd, hrdata, hdk, hsw, Except.isOk, Except.toBool]
      | false =>
        cases hsl : w.slack with
        | ok u => simp [executor, hrd, hrdata, hdk, hsw, hsl, Except.isOk, Except.toBool]
        | error serr =>
          simp [executor, hrd, hrdata, hdk, hsw, hsl, Except.isOk, Except.toBool]
    | false =>
      cases hpl : w.pdList with
      | error err =>
        cases hre : err.response with
        | none => simp [executor, hrd, hrdata, hdk, hpl, hre, Except.isOk, Except.toBool]
        | some resp =>
          obtain ⟨d, hd, he⟩ := hw3 err resp hpl hre
          obtain ⟨e, he'⟩ := Option.isSome_iff_exists.mp he
          simp [executor, hrd, hrdata, hdk, hpl, hre, hd, he', Except.isOk,
            Except.toBool]
      | ok resp =>
        obtain ⟨ld, hld, hinc⟩ := hw4 resp hpl
        obtain ⟨incs, hincs⟩ := Option.isSome_iff_exists.mp hinc
        cases hlast : incs.getLast? with
        | none =>
          simp [executor, hrd, hrdata, hdk, hpl, hld, hincs, hlast,
            Except.isOk, Except.toBool]
        | some lastIncident =>
          cases hpn : w.pdNote with
          | ok u =>
            simp [executor, hrd, hrdata, hdk, hpl, hld, hincs, hlast, hpn,
              Except.isOk, Except.toBool]
          | error nerr =>
            cases hnre : nerr.response with
            | none =>
              simp [executor, hrd, hrdata, hdk, hpl, hld, hincs, hlast, hpn,
                hnre, Except.isOk, Except.toBool]
            | some resp2 =>
              obtain ⟨d2, hd2, he2⟩ := hw5 nerr resp2 hpn hnre
              obtain ⟨e2, he2'⟩ := Option.isSome_iff_exists.mp he2
              simp [executor, hrd, hrdata, hdk, hpl, hld, hincs, hlast, hpn,
                hnre, hd2, he2', Except.isOk, Except.toBool]

/-- Witness for C2 (amended) at a concrete well-formed world. -/
theorem C2_no_throw_of_wellFormed_witness :
    WellFormedWorld w0 ∧ (executor cfg0 sec0 parKey "a1" w0).fst.isOk = true := by
  have h : WellFormedWorld w0 := by
    refine ⟨?_, ?_, ?_, ?_, ?_⟩
    · intro err resp h1 h2; exact nomatch h1
    · intro r hr; injection hr with h; subst h; rfl
    · intro err resp h1 h2; exact nomatch h1
    · intro resp hresp; injection hresp with h; subst h; exact ⟨_, rfl, rfl⟩
    · intro err resp h1 h2; exact nomatch h1
  exact ⟨h, C2_no_throw_of_wellFormed cfg0 sec0 parKey "a1" w0 h⟩

/-- A successful Rundeck response whose body is absent. -/
def rdNoData : RundeckResponse := ⟨200, "OK", none⟩

/-- World where the job trigger succeeds but with no response body. -/
def wNoData : World := ⟨.ok rdNoData, .ok (), .ok pdListOk, .ok ()⟩

/-- C2 counterexample: on a successful job-trigger response with no `data`,
the read `rundeckResult.data.permalink` throws to the caller. -/
theorem C2_counterexample :
    (executor cfg0 sec0 parNoKey "a1" wNoData).fst = Except.error () := rfl

/-- World where the job trigger fails with a bare transport error. -/
def wJobFail : World := ⟨.error ⟨none, "boom"⟩, .ok (), .ok pdListOk, .ok ()⟩

/-- The message built by `errorResult` always contains the literal
"calling a rundeck job". -/
theorem errorResult_mentions_calling (id msg : String) :
    mentions ("Invalid Response: an error occurred in rundeck action \"" ++
      (id ++ ("\" calling a rundeck job: " ++ msg))) "calling a rundeck job" := by
  refine ⟨"Invalid Response: an error occurred in rundeck action \"" ++
    (id ++ "\" "), ": " ++ msg, ?_⟩
  rw [String.append_assoc, String.append_assoc]
  congr 2

/-- C4 (amended): if the job-trigger call fails (with a failure object whose
fields the catch block can dereference), the executor returns an error result
whose message mentions "calling a rundeck job" — not the spec's literal
"calling a job" — and neither the incident system nor the chat webhook is
called: the trace holds only the job-trigger request. -/
theorem C4_job_trigger_failure (config : ActionTypeConfigType)
    (secrets : ActionTypeSecretsType) (params : ActionParamsType)
    (actionId : String) (w : World) (err : RundeckErr)
    (herr : w.rundeck = Except.error err)
    (hwf : ∀ resp, err.response = some resp → resp.data.isSome) :
    ∃ m, executor config secrets params actionId w =
      (Except.ok (ActionTypeExecutorResult.error m),
       [executeRundeckJob (config.headers.getD []) config.rundeckBaseUrl
         secrets.rundeckApiToken config.rundeckApiVersion config.rundeckJobId
         params.jobParams]) ∧
      mentions m "calling a rundeck job" := by
  cases hre : err.response with
  | none =>
    refine ⟨_, ?_, errorResult_mentions_calling actionId err.message⟩
    simp [executor, herr, hre, errorResult]
  | some resp =>
    obtain ⟨d, hd⟩ := Option.isSome_iff_exists.mp (hwf resp hre)
    refine ⟨_, ?_, errorResult_mentions_calling actionId (jsUndef d.message)⟩
    simp [executor, herr, hre, hd, errorResult]

/-- Witness for C4 (amended) at a concrete input. -/
theorem C4_job_trigger_failure_witness :
    ∃ m, executor cfg0 sec0 parKey "a1" wJobFail =
      (Except.ok (ActionTypeExecutorResult.error m),
       [executeRundeckJob [] "https://rundeck.example.com/" "tok" 24 "job-1"
         none]) ∧
      mentions m "calling a rundeck job" :=
  C4_job_trigger_failure cfg0 sec0 parKey "a1" wJobFail ⟨none, "boom"⟩ rfl
    (fun _ h => nomatch h)

/-- The message the executor actually returns when the job trigger fails with
a bare transport error whose text is "boom". -/
def mJobFail : String :=
  "Invalid Response: an error occurred in rundeck action \"a1\" calling a rundeck job: boom"

/-- C4 counterexample: on a failing job trigger the error message does not
contain the spec's literal "calling a job" (the code writes
"calling a rundeck job"). -/
theorem C4_counterexample :
    (executor cfg0 sec0 parKey "a1" wJobFail).fst =
      Except.ok (ActionTypeExecutorResult.error mJobFail) ∧
    ¬ mentions mJobFail "calling a job" :=
  ⟨rfl, fun h => absurd (mentions_contiguous h) (by decide)⟩

/-- Secrets with no Slack webhook URL configured. -/
def secNoHook : ActionTypeSecretsType := ⟨"tok", some "pdkey", none⟩

/-- World where the incident-list query succeeds with an empty array. -/
def wEmptyList : World := ⟨.ok rdOk, .ok (), .ok ⟨some ⟨some []⟩⟩, .ok ()⟩

/-- C5 (amended): when `dedupKey` is falsy and no chat webhook URL is
configured, the executor (after a successful job trigger) returns the error
built by `errorSlackProcess` whose message embeds
"Neither of dedupKey nor slackWebhookUrl are provided, failed to send message
to PagerDuty incident or slack channel." — mentioning both "dedupKey" and
"slackWebhookUrl" — and issues no remote call beyond the job trigger. -/
theorem C5_missing_webhook (config : ActionTypeConfigType)
    (secrets : ActionTypeSecretsType) (params : ActionParamsType)
    (actionId : String) (w : World) (r : RundeckResponse) (d : RundeckData)
    (hr : w.rundeck = Except.ok r) (hd : r.data = some d)
    (hdk : truthy params.dedupKey = false)
    (hsw : truthy secrets.slackWebhookUrl = false) :
    executor config secrets params actionId w =
      (Except.ok (ActionTypeExecutorResult.error
        ("Invalid Response: an error occurred in rundeck action \"" ++
          (actionId ++ ("\": " ++
            "Neither of dedupKey nor slackWebhookUrl are provided, failed to send message to PagerDuty incident or slack channel.")))),
       [executeRundeckJob (config.headers.getD []) config.rundeckBaseUrl
         secrets.rundeckApiToken config.rundeckApiVersion config.rundeckJobId
         params.jobParams]) ∧
    mentions ("Invalid Response: an error occurred in rundeck action \"" ++
      (actionId ++ ("\": " ++
        "Neither of dedupKey nor slackWebhookUrl are provided, failed to send message to PagerDuty incident or slack channel.")))
      "dedupKey" ∧
    mentions ("Invalid Response: an error occurred in rundeck action \"" ++
      (actionId ++ ("\": " ++
        "Neither of dedupKey nor slackWebhookUrl are provided, failed to send message to PagerDuty incident or slack channel.")))
      "slackWebhookUrl" := by
  refine ⟨?_, ?_, ?_⟩
  · simp [executor, hr, hd, hdk, hsw, errorSlackProcess]
  · refine ⟨"Invalid Response: an error occurred in rundeck action \"" ++
      (actionId ++ "\": Neither of "),
      " nor slackWebhookUrl are provided, failed to send message to PagerDuty incident or slack channel.", ?_⟩
    rw [String.append_assoc, String.append_assoc]
    congr 2
  · refine ⟨"Invalid Response: an error occurred in rundeck action \"" ++
      (actionId ++ "\": Neither of dedupKey nor "),
      " are provided, failed to send message to PagerDuty incident or slack channel.", ?_⟩
    rw [String.append_assoc, String.append_assoc]
    congr 2

/-- Witness for C5 (amended) at a concrete input. -/
theorem C5_missing_webhook_witness :
    executor cfg0 secNoHook parNoKey "a1" w0 =
      (Except.ok (ActionTypeExecutorResult.error
        ("Invalid Response: an error occurred in rundeck action \"" ++
          ("a1" ++ ("\": " ++
            "Neither of dedupKey nor slackWebhookUrl are provided, failed to send message to PagerDuty incident or slack channel.")))),
       [executeRundeckJob [] "https://rundeck.example.com/" "tok" 24 "job-1"
         none]) ∧
    mentions ("Invalid Response: an error occurred in rundeck action \"" ++
      ("a1" ++ ("\": " ++
        "Neither of dedupKey nor slackWebhookUrl are provided, failed to send message to PagerDuty incident or slack channel.")))
      "dedupKey" ∧
    mentions ("Invalid Response: an error occurred in rundeck action \"" ++
      ("a1" ++ ("\": " ++
        "Neither of dedupKey nor slackWebhookUrl are provided, failed to send message to PagerDuty incident or slack channel.")))
      "slackWebhookUrl" :=
  C5_missing_webhook cfg0 secNoHook parNoKey "a1" w0 rdOk ⟨some "https://rd/exec/1"⟩
    rfl rfl rfl rfl

/-- The message the executor actually returns for the missing-webhook case
with actionId "a1". -/
def mNoHook : String :=
  "Invalid Response: an error occurred in rundeck action \"a1\": Neither of dedupKey nor slackWebhookUrl are provided, failed to send message to PagerDuty incident or slack channel."

/-- C5 counterexample: the returned message is not the spec's literal
"Neither of dedupKey nor slackWebhookUrl are provided, failed to send
message." (the code wraps a longer sentence in the errorSlackProcess
prefix). -/
theorem C5_counterexample :
    (executor cfg0 secNoHook parNoKey "a1" w0).fst =
      Except.ok (ActionTypeExecutorResult.error mNoHook) ∧
    mNoHook ≠
      "Neither of dedupKey nor slackWebhookUrl are provided, failed to send message." :=
  ⟨rfl, by decide⟩

/-- C6: when `dedupKey` is truthy and the incident-list query succeeds with
an empty array, the executor returns an error whose message mentions
"is empty", and no annotation (note-posting) call is issued. -/
theorem C6_empty_incident_list (config : ActionTypeConfigType)
    (secrets : ActionTypeSecretsType) (params : ActionParamsType)
    (actionId : String) (w : World) (r : RundeckResponse) (d : RundeckData)
    (k : String) (resp : PdListResponse) (ld : PdListData)
    (hr : w.rundeck = Except.ok r) (hd : r.data = some d)
    (hk : params.dedupKey = some k) (hk2 : k ≠ "")
    (hpl : w.pdList = Except.ok resp) (hld : resp.data = some ld)
    (hinc : ld.incidents = some []) :
    executor config secrets params actionId w =
      (Except.ok (ActionTypeExecutorResult.error
        ("An error occurred while calling Pager Duty API in rundeck action \"" ++
          (actionId ++ ("\": " ++
            ("Pager Duty incident list requested by dedupKey(incident_key), \"" ++
              (k ++ "\", is empty.")))))),
       [executeRundeckJob (config.headers.getD []) config.rundeckBaseUrl
         secrets.rundeckApiToken config.rundeckApiVersion config.rundeckJobId
         params.jobParams,
        getPagerDutyIncidentList (config.headers.getD []) secrets.pdApiKey
          params.dedupKey]) ∧
    mentions ("An error occurred while calling Pager Duty API in rundeck action \"" ++
      (actionId ++ ("\": " ++
        ("Pager Duty incident list requested by dedupKey(incident_key), \"" ++
          (k ++ "\", is empty."))))) "is empty" ∧
    ∀ u hs n, RemoteCall.pdAddNote u hs n ∉
      (executor config secrets params actionId w).snd := by
  have hke : k.isEmpty = false := by
    cases hke : k.isEmpty
    · rfl
    · exact absurd ((String.isEmpty_iff k).mp hke) hk2
  refine ⟨?_, ?_, ?_⟩
  · simp [executor, hr, hd, truthy, hke, hk, hpl, hld, hinc,
      errorPagerDutyProcess, jsNull]
  · refine ⟨"An error occurred while calling Pager Duty API in rundeck action \"" ++
      (actionId ++ ("\": " ++
        ("Pager Duty incident list requested by dedupKey(incident_key), \"" ++
          (k ++ "\", ")))), ".", ?_⟩
    simp only [String.append_assoc]
    congr 4
  · intro u hs n
    simp [executor, hr, hd, truthy, hke, hk, hpl, hld, hinc,
      executeRundeckJob, getPagerDutyIncidentList]

/-- Witness for C6 at a concrete input. -/
theorem C6_empty_incident_list_witness :
    executor cfg0 sec0 parKey "a1" wEmptyList =
      (Except.ok (ActionTypeExecutorResult.error
        ("An error occurred while calling Pager Duty API in rundeck action \"" ++
          ("a1" ++ ("\": " ++
            ("Pager Duty incident list requested by dedupKey(incident_key), \"" ++
              ("dk-1" ++ "\", is empty.")))))),
       [executeRundeckJob [] "https://rundeck.example.com/" "tok" 24 "job-1"
         none,
        getPagerDutyIncidentList [] (some "pdkey") (some "dk-1")]) ∧
    mentions ("An error occurred while calling Pager Duty API in rundeck action \"" ++
      ("a1" ++ ("\": " ++
        ("Pager Duty incident list requested by dedupKey(incident_key), \"" ++
          ("dk-1" ++ "\", is empty."))))) "is empty" ∧
    ∀ u hs n, RemoteCall.pdAddNote u hs n ∉
      (executor cfg0 sec0 parKey "a1" wEmptyList).snd :=
  C6_empty_incident_list cfg0 sec0 parKey "a1" wEmptyList rdOk
    ⟨some "https://rd/exec/1"⟩ "dk-1" ⟨some ⟨some []⟩⟩ ⟨some []⟩
    rfl rfl rfl (by decide) rfl rfl rfl

/-- C7: when `dedupKey` is truthy, the incident list returned by the query is
non-empty, and the note-post succeeds, the executor selects the last element
of the list as the target incident, posts to it a note whose body contains the
execution link text, and returns ok with the job-trigger response body as
data. -/
theorem C7_incident_path_success (config : ActionTypeConfigType)
    (secrets : ActionTypeSecretsType) (params : ActionParamsType)
    (actionId : String) (w : World) (r : RundeckResponse) (d : RundeckData)
    (k link : String) (resp : PdListResponse) (ld : PdListData)
    (incs : List Incident) (i : Incident)
    (hr : w.rundeck = Except.ok r) (hd : r.data = some d)
    (hlink : d.permalink = some link)
    (hk : params.dedupKey = some k) (hk2 : k ≠ "")
    (hpl : w.pdList = Except.ok resp) (hld : resp.data = some ld)
    (hinc : ld.incidents = some incs) (hlast : incs.getLast? = some i)
    (hpn : w.pdNote = Except.ok ()) :
    executor config secrets params actionId w =
      (Except.ok (ActionTypeExecutorResult.ok r.data),
       [executeRundeckJob (config.headers.getD []) config.rundeckBaseUrl
          secrets.rundeckApiToken config.rundeckApiVersion config.rundeckJobId
          params.jobParams,
        getPagerDutyIncidentList (config.headers.getD []) secrets.pdApiKey
          params.dedupKey,
        RemoteCall.pdAddNote
          ("https://api.pagerduty.com/incidents/" ++ (i.id ++ "/notes"))
          ((config.headers.getD []) ++
            [("authorization", "Token token=" ++ jsNull secrets.pdApiKey)])
          ("Rundeck job for the alert is triggered. Link: " ++ link)]) ∧
    mentions ("Rundeck job for the alert is triggered. Link: " ++ link)
      link := by
  have hke : k.isEmpty = false := by
    cases hke : k.isEmpty
    · rfl
    · exact absurd ((String.isEmpty_iff k).mp hke) hk2
  constructor
  · simp [executor, hr, hd, hlink, truthy, hke, hk, hpl, hld, hinc, hlast,
      hpn, addNoteToPagerDutyIncident, successResult, jsUndef]
  · exact ⟨"Rundeck job for the alert is triggered. Link: ", "",
      by rw [String.append_empty]⟩

/-- Witness for C7 at a concrete input. -/
theorem C7_incident_path_success_witness :
    executor cfg0 sec0 parKey "a1" w0 =
      (Except.ok (ActionTypeExecutorResult.ok rdOk.data),
       [executeRundeckJob [] "https://rundeck.example.com/" "tok" 24 "job-1"
          none,
        getPagerDutyIncidentList [] (some "pdkey") (some "dk-1"),
        RemoteCall.pdAddNote
          ("https://api.pagerduty.com/incidents/" ++ ("P2" ++ "/notes"))
          ([] ++ [("authorization", "Token token=" ++ jsNull (some "pdkey"))])
          ("Rundeck job for the alert is triggered. Link: " ++
            "https://rd/exec/1")]) ∧
    mentions ("Rundeck job for the alert is triggered. Link: " ++
      "https://rd/exec/1") "https://rd/exec/1" :=
  C7_incident_path_success cfg0 sec0 parKey "a1" w0 rdOk
    ⟨some "https://rd/exec/1"⟩ "dk-1" "https://rd/exec/1" pdListOk
    ⟨some [⟨"P1"⟩, ⟨"P2"⟩]⟩ [⟨"P1"⟩, ⟨"P2"⟩] ⟨"P2"⟩
    rfl rfl rfl rfl (by decide) rfl rfl rfl rfl rfl

/-- C8: when `dedupKey` is falsy, a chat webhook URL is configured, and the
webhook call succeeds, the executor returns ok with the job-trigger response
body as data; the webhook response itself is discarded. -/
theorem C8_slack_path_success (config : ActionTypeConfigType)
    (secrets : ActionTypeSecretsType) (params : ActionParamsType)
    (actionId : String) (w : World) (r : RundeckResponse) (d : RundeckData)
    (u : String)
    (hr : w.rundeck = Except.ok r) (hd : r.data = some d)
    (hdk : truthy params.dedupKey = false)
    (hsw : secrets.slackWebhookUrl = some u) (hu : u ≠ "")
    (hsl : w.slack = Except.ok ()) :
    executor config secrets params actionId w =
      (Except.ok (ActionTypeExecutorResult.ok r.data),
       [executeRundeckJob (config.headers.getD []) config.rundeckBaseUrl
          secrets.rundeckApiToken config.rundeckApiVersion config.rundeckJobId
          params.jobParams,
        RemoteCall.slackSend u params.alertName
          ("Rundeck job for the alert is triggered. Link: " ++
            jsUndef d.permalink)]) := by
  have hue : u.isEmpty = false := by
    cases hue : u.isEmpty
    · rfl
    · exact absurd ((String.isEmpty_iff u).mp hue) hu
  have htw : truthy (some u) = true := by simp [truthy, hue]
  simp [executor, hr, hd, hdk, htw, hsw, hsl, successResult, jsNull]

/-- Witness for C8 at a concrete input. -/
theorem C8_slack_path_success_witness :
    executor cfg0 sec0 parNoKey "a1" w0 =
      (Except.ok (ActionTypeExecutorResult.ok rdOk.data),
       [executeRundeckJob [] "https://rundeck.example.com/" "tok" 24 "job-1"
          none,
        RemoteCall.slackSend "https://hooks.example.com/x" (some "my alert")
          ("Rundeck job for the alert is triggered. Link: " ++
            jsUndef (some "https://rd/exec/1"))]) :=
  C8_slack_path_success cfg0 sec0 parNoKey "a1" w0 rdOk
    ⟨some "https://rd/exec/1"⟩ "https://hooks.example.com/x"
    rfl rfl rfl rfl (by decide) rfl

/-- On the incident path (truthy dedup key, job trigger succeeded with a
body), the trace starts with the job-trigger request followed by the
incident-list request, whatever the PagerDuty calls do. -/
theorem executor_pd_trace (config : ActionTypeConfigType)
    (secrets : ActionTypeSecretsType) (params : ActionParamsType)
    (actionId : String) (w : World) (r : RundeckResponse) (d : RundeckData)
    (hr : w.rundeck = Except.ok r) (hd : r.data = some d)
    (htk : truthy params.dedupKey = true) :
    ∃ rest, (executor config secrets params actionId w).snd =
      executeRundeckJob (config.headers.getD []) config.rundeckBaseUrl
        secrets.rundeckApiToken config.rundeckApiVersion config.rundeckJobId
        params.jobParams ::
      getPagerDutyIncidentList (config.headers.getD []) secrets.pdApiKey
        params.dedupKey :: rest := by
  cases hpl : w.pdList with
  | error err =>
    cases hre : err.response with
    | none => exact ⟨[], by simp [executor, hr, hd, htk, hpl, hre]⟩
    | some resp =>
      cases hrd2 : resp.data with
      | none => exact ⟨[], by simp [executor, hr, hd, htk, hpl, hre, hrd2]⟩
      | some dd =>
        cases he : dd.error with
        | none => exact ⟨[], by simp [executor, hr, hd, htk, hpl, hre, hrd2, he]⟩
        | some e => exact ⟨[], by simp [executor, hr, hd, htk, hpl, hre, hrd2, he]⟩
  | ok resp =>
    cases hld : resp.data with
    | none => exact ⟨[], by simp [executor, hr, hd, htk, hpl, hld]⟩
    | some ld =>
      cases hinc : ld.incidents with
      | none => exact ⟨[], by simp [executor, hr, hd, htk, hpl, hld, hinc]⟩
      | some incs =>
        cases hlast : incs.getLast? with
        | none => exact ⟨[], by simp [executor, hr, hd, htk, hpl, hld, hinc, hlast]⟩
        | some i =>
          cases hpn : w.pdNote with
          | ok u =>
            exact ⟨[addNoteToPagerDutyIncident (config.headers.getD []) secrets.pdApiKey i.id d.permalink], by simp [executor, hr, hd, htk, hpl, hld, hinc, hlast, hpn]⟩
          | error nerr =>
            cases hnre : nerr.response with
            | none =>
              exact ⟨[addNoteToPagerDutyIncident (config.headers.getD []) secrets.pdApiKey i.id d.permalink], by
                simp [executor, hr, hd, htk, hpl, hld, hinc, hlast, hpn, hnre]⟩
            | some resp2 =>
              cases hd2 : resp2.data with
              | none =>
                exact ⟨[addNoteToPagerDutyIncident (config.headers.getD []) secrets.pdApiKey i.id d.permalink], by
                  simp [executor, hr, hd, htk, hpl, hld, hinc, hlast, hpn, hnre,
                    hd2]⟩
              | some dd2 =>
                cases he2 : dd2.error with
                | none =>
                  exact ⟨[addNoteToPagerDutyIncident (config.headers.getD []) secrets.pdApiKey i.id d.permalink], by
                    simp [executor, hr, hd, htk, hpl, hld, hinc, hlast, hpn,
                      hnre, hd2, he2]⟩
                | some e2 =>
                  exact ⟨[addNoteToPagerDutyIncident (config.headers.getD []) secrets.pdApiKey i.id d.permalink], by
                    simp [executor, hr, hd, htk, hpl, hld, hinc, hlast, hpn,
                      hnre, hd2, he2]⟩

/-- Once a last incident is selected, the trace is exactly job trigger,
incident list, add note — whatever the note call does. -/
theorem executor_pd_note_trace (config : ActionTypeConfigType)
    (secrets : ActionTypeSecretsType) (params : ActionParamsType)
    (actionId : String) (w : World) (r : RundeckResponse) (d : RundeckData)
    (resp : PdListResponse) (ld : PdListData) (incs : List Incident)
    (i : Incident)
    (hr : w.rundeck = Except.ok r) (hd : r.data = some d)
    (htk : truthy params.dedupKey = true)
    (hpl : w.pdList = Except.ok resp) (hld : resp.data = some ld)
    (hinc : ld.incidents = some incs) (hlast : incs.getLast? = some i) :
    (executor config secrets params actionId w).snd =
      [executeRundeckJob (config.headers.getD []) config.rundeckBaseUrl
        secrets.rundeckApiToken config.rundeckApiVersion config.rundeckJobId
        params.jobParams,
       getPagerDutyIncidentList (config.headers.getD []) secrets.pdApiKey
        params.dedupKey,
       addNoteToPagerDutyIncident (config.headers.getD []) secrets.pdApiKey
        i.id d.permalink] := by
  cases hpn : w.pdNote with
  | ok u => simp [executor, hr, hd, htk, hpl, hld, hinc, hlast, hpn]
  | error nerr =>
    cases hnre : nerr.response with
    | none => simp [executor, hr, hd, htk, hpl, hld, hinc, hlast, hpn, hnre]
    | some resp2 =>
      cases hd2 : resp2.data with
      | none =>
        simp [executor, hr, hd, htk, hpl, hld, hinc, hlast, hpn, hnre, hd2]
      | some dd2 =>
        cases he2 : dd2.error with
        | none =>
          simp [executor, hr, hd, htk, hpl, hld, hinc, hlast, hpn, hnre, hd2,
            he2]
        | some e2 =>
          simp [executor, hr, hd, htk, hpl, hld, hinc, hlast, hpn, hnre, hd2,
            he2]

/-- C9: when `dedupKey` is truthy and `pdApiKey` is null, the executor
performs no misconfiguration check analogous to the missing-webhook check: it
still issues the incident-list request with an authorization header built
from the null key ("Token token=null"), and, if that succeeds with a
non-empty list, the note-post request with the same header. -/
theorem C9_null_pdApiKey_no_guard (config : ActionTypeConfigType)
    (secrets : ActionTypeSecretsType) (params : ActionParamsType)
    (actionId : String) (w : World) (r : RundeckResponse) (d : RundeckData)
    (k : String)
    (hr : w.rundeck = Except.ok r) (hd : r.data = some d)
    (hk : params.dedupKey = some k) (hk2 : k ≠ "")
    (hpd : secrets.pdApiKey = none) :
    (∃ rest, (executor config secrets params actionId w).snd =
      executeRundeckJob (config.headers.getD []) config.rundeckBaseUrl
        secrets.rundeckApiToken config.rundeckApiVersion config.rundeckJobId
        params.jobParams ::
      RemoteCall.pdIncidentList
        ("https://api.pagerduty.com/incidents?date_range=all&incident_key=" ++ k)
        ((config.headers.getD []) ++ [("authorization", "Token token=null")]) ::
      rest) ∧
    (∀ resp ld incs i, w.pdList = Except.ok resp → resp.data = some ld →
      ld.incidents = some incs → incs.getLast? = some i →
      RemoteCall.pdAddNote
        ("https://api.pagerduty.com/incidents/" ++ (i.id ++ "/notes"))
        ((config.headers.getD []) ++ [("authorization", "Token token=null")])
        ("Rundeck job for the alert is triggered. Link: " ++ jsUndef d.permalink)
        ∈ (executor config secrets params actionId w).snd) := by
  have hke : k.isEmpty = false := by
    cases hke : k.isEmpty
    · rfl
    · exact absurd ((String.isEmpty_iff k).mp hke) hk2
  have htk : truthy params.dedupKey = true := by simp [truthy, hk, hke]
  constructor
  · obtain ⟨rest, hsnd⟩ :=
      executor_pd_trace config secrets params actionId w r d hr hd htk
    refine ⟨rest, ?_⟩
    rw [hsnd]
    simp [getPagerDutyIncidentList, jsNull, hpd, hk]
  · intro resp ld incs i h1 h2 h3 h4
    rw [executor_pd_note_trace config secrets params actionId w r d resp ld
      incs i hr hd htk h1 h2 h3 h4]
    simp [addNoteToPagerDutyIncident, jsNull, hpd]

/-- Secrets with a null PagerDuty API key. -/
def secNoPd : ActionTypeSecretsType := ⟨"tok", none, none⟩

/-- Witness for C9 at a concrete input. -/
theorem C9_null_pdApiKey_no_guard_witness :
    (∃ rest, (executor cfg0 secNoPd parKey "a1" w0).snd =
      executeRundeckJob [] "https://rundeck.example.com/" "tok" 24 "job-1"
        none ::
      RemoteCall.pdIncidentList
        ("https://api.pagerduty.com/incidents?date_range=all&incident_key=" ++
          "dk-1")
        ([] ++ [("authorization", "Token token=null")]) :: rest) ∧
    (∀ resp ld incs i, w0.pdList = Except.ok resp → resp.data = some ld →
      ld.incidents = some incs → incs.getLast? = some i →
      RemoteCall.pdAddNote
        ("https://api.pagerduty.com/incidents/" ++ (i.id ++ "/notes"))
        ([] ++ [("authorization", "Token token=null")])
        ("Rundeck job for the alert is triggered. Link: " ++
          jsUndef (RundeckData.mk (some "https://rd/exec/1")).permalink)
        ∈ (executor cfg0 secNoPd parKey "a1" w0).snd) :=
  C9_null_pdApiKey_no_guard cfg0 secNoPd parKey "a1" w0 rdOk
    ⟨some "https://rd/exec/1"⟩ "dk-1" rfl rfl rfl (by decide) rfl

/-- C10: when the chat webhook call fails, the returned error message embeds
the thrown value's `error` field rather than its `message` field; for a
thrown error lacking the `error` field the message ends with
"an error occurred while calling slack webhook: undefined". -/
theorem C10_slack_error_embeds_error_field (config : ActionTypeConfigType)
    (secrets : ActionTypeSecretsType) (params : ActionParamsType)
    (actionId : String) (w : World) (r : RundeckResponse) (d : RundeckData)
    (u : String) (err : SlackErr)
    (hr : w.rundeck = Except.ok r) (hd : r.data = some d)
    (hdk : truthy params.dedupKey = false)
    (hsw : secrets.slackWebhookUrl = some u) (hu : u ≠ "")
    (hsl : w.slack = Except.error err) :
    (executor config secrets params actionId w).fst =
      Except.ok (ActionTypeExecutorResult.error
        ("Invalid Response: an error occurred in rundeck action \"" ++
          (actionId ++ ("\": " ++
            ("an error occurred while calling slack webhook: " ++
              jsUndef err.error))))) ∧
    (err.error = none →
      ∃ p, ("Invalid Response: an error occurred in rundeck action \"" ++
        (actionId ++ ("\": " ++
          ("an error occurred while calling slack webhook: " ++
            jsUndef err.error)))) =
        p ++ "an error occurred while calling slack webhook: undefined") := by
  have hue : u.isEmpty = false := by
    cases hue : u.isEmpty
    · rfl
    · exact absurd ((String.isEmpty_iff u).mp hue) hu
  have htw : truthy (some u) = true := by simp [truthy, hue]
  constructor
  · simp [executor, hr, hd, hdk, htw, hsw, hsl, errorSlackProcess]
  · intro hnone
    refine ⟨"Invalid Response: an error occurred in rundeck action \"" ++
      (actionId ++ "\": "), ?_⟩
    rw [hnone, String.append_assoc, String.append_assoc]
    congr 2

/-- World where the Slack webhook call fails with an error object that has no
`error` field. -/
def wSlackFail : World :=
  ⟨.ok rdOk, .error ⟨none, "socket hang up"⟩, .ok pdListOk, .ok ()⟩

/-- Witness for C10 at a concrete input. -/
theorem C10_slack_error_embeds_error_field_witness :
    (executor cfg0 sec0 parNoKey "a1" wSlackFail).fst =
      Except.ok (ActionTypeExecutorResult.error
        ("Invalid Response: an error occurred in rundeck action \"" ++
          ("a1" ++ ("\": " ++
            ("an error occurred while calling slack webhook: " ++
              jsUndef (SlackErr.mk none "socket hang up").error))))) ∧
    ((SlackErr.mk none "socket hang up").error = none →
      ∃ p, ("Invalid Response: an error occurred in rundeck action \"" ++
        ("a1" ++ ("\": " ++
          ("an error occurred while calling slack webhook: " ++
            jsUndef (SlackErr.mk none "socket hang up").error)))) =
        p ++ "an error occurred while calling slack webhook: undefined") :=
  C10_slack_error_embeds_error_field cfg0 sec0 parNoKey "a1" wSlackFail rdOk
    ⟨some "https://rd/exec/1"⟩ "https://hooks.example.com/x"
    ⟨none, "socket hang up"⟩ rfl rfl rfl rfl (by decide) rfl

/-- The note-post failure thrown by the PagerDuty add-note call: a 404
response with a structured error body, plus the generic axios message. -/
def pdNoteErr : PdErr :=
  ⟨some ⟨404, some ⟨some ⟨some "Not Found"⟩⟩⟩,
   "Request failed with status code 404"⟩

/-- World where everything succeeds except the note-post call. -/
def wNoteFail : World := ⟨.ok rdOk, .ok (), .ok pdListOk, .error pdNoteErr⟩

/-- The message the executor actually returns for that note-post failure. -/
def mNoteFail : String :=
  "An error occurred while calling Pager Duty API in rundeck action \"a1\": Request failed with status code 404"

/-- C3: on a note-post failure carrying a structured remote response
(status 404, error.message "Not Found"), the executor returns the
errorPagerDutyProcess prefix but embeds the generic `err.message` instead of
the structured "404 Not Found" detail it computes for the log. -/
theorem C3_note_failure_uses_generic_message :
    (executor cfg0 sec0 parKey "a1" wNoteFail).fst =
      Except.ok (ActionTypeExecutorResult.error mNoteFail) ∧
    ¬ mentions mNoteFail "404 Not Found" :=
  ⟨rfl, fun h => absurd (mentions_contiguous h) (by decide)⟩

end Rundeck
